import Mathlib

/-!
Verification of the actor runtime (include/mbgl/actor/actor.hpp,
include/mbgl/actor/mailbox.hpp, include/mbgl/util/thread.hpp) and of the
style-function conversion (src/mbgl/style/conversion/function.cpp).

The actor runtime is embedded as a state machine over a combined
Actor-plus-Mailbox state.  The bodies of Mailbox (mailbox.cpp), Message
(message.hpp) and ActorRef (actor_ref.hpp) are not part of the repository
snapshot, only their uses in actor.hpp and thread.hpp are; where a
definition depends on those bodies it is modelled from the spec, and each
such definition says so in its doc comment.  The ordering of the operations
themselves (emplaceObject before Mailbox::activate, close before the
destruction of the object, the Thread shutdown sequence) is taken from the
headers in the repository.
-/

/-- Lifecycle states of a Mailbox.  Modelled from the spec: a mailbox is
created holding, transitions to opened when a Scheduler is attached
(`Mailbox::activate` in actor.hpp), and to closed on teardown; closed is
terminal. -/
inductive MState where
  | holding
  | opened
  | closed
deriving DecidableEq

/-- Defunctionalized target-object methods.  The target object is modelled
as a single natural number; a method takes the object state and one argument
and returns the new object state together with a return value.  `identity`
is the spec's identity method: it returns its argument unchanged. -/
inductive MethodCode where
  | identity
  | getObj
  | setObj
  | incr

/-- Interpreter for `MethodCode`: (object, argument) to (object, result). -/
def runMethod : MethodCode → Nat → Nat → Nat × Nat
  | MethodCode.identity, o, a => (o, a)
  | MethodCode.getObj, o, _ => (o, o)
  | MethodCode.setObj, _, a => (a, 0)
  | MethodCode.incr, o, _ => (o + 1, 0)

/-- A message as pushed onto a mailbox: the sender's identity, the one-shot
completion-token identity for ask messages, whether it is an ask
(request/response) or an invoke (fire-and-forget), and the bound method with
its captured argument.  Modelled from the spec: message.hpp is not in the
repository snapshot. -/
structure Msg where
  sender : Nat
  token : Nat
  isAsk : Bool
  method : MethodCode
  arg : Nat

/-- The combined state of one Actor and its Mailbox.  `mstate` and `queue`
are the mailbox (lifecycle flag and FIFO of pending messages); `initialized`
and `obj` are the Actor's initialized flag and the target-object storage
(actor.hpp lines 128-129); `dead` records that the owning Actor has been
destructed, so the weak mailbox handle held by an ActorRef no longer
upgrades; `objectDestructed` records that the target object's destructor has
run.  The remaining fields are history (ghost) fields recording what
happened, in order: `accepted` every message that entered the queue (push
order), `dispatched` every message executed (execution order), `drained`
messages destructed by close without executing, `refused` messages pushed
while closed (silently dropped), `completions` the (token, value) pairs
delivered to ask completion tokens, and `cancelledTokens` the tokens
abandoned when close drained their messages. -/
structure ActorState where
  mstate : MState
  queue : List Msg
  initialized : Bool
  obj : Nat
  dead : Bool
  objectDestructed : Bool
  accepted : List Msg
  dispatched : List Msg
  drained : List Msg
  refused : List Msg
  completions : List (Nat × Nat)
  cancelledTokens : List Nat

/-- Mailbox::push.  Modelled from the spec's push algorithm (mailbox.cpp is
not in the snapshot): under the push lock, a closed mailbox accepts the
message silently and drops it; otherwise the message is enqueued in FIFO
order (and, when open, a receive is scheduled - scheduling is implicit here:
`Mailbox.receive` may fire at any time in the step relation). -/
def Mailbox.push (m : Msg) (s : ActorState) : ActorState :=
  if s.mstate = MState.closed then { s with refused := s.refused ++ [m] }
  else { s with queue := s.queue ++ [m], accepted := s.accepted ++ [m] }

/-- Pushing a list of messages in order (left to right). -/
def Mailbox.pushAll (ms : List Msg) (s : ActorState) : ActorState :=
  ms.foldl (fun t m => Mailbox.push m t) s

/-- Mailbox::activate(Scheduler&), called by both Actor constructors and by
Actor::activate (actor.hpp lines 70, 92).  Modelled from the spec: attaching
a real Scheduler moves a holding mailbox to the open state; it does not
dispatch anything by itself. -/
def Mailbox.activate (s : ActorState) : ActorState :=
  if s.mstate = MState.holding then { s with mstate := MState.opened } else s

/-- Mailbox::receive.  Modelled from the spec's receive algorithm: on an
open mailbox it pops exactly one message and executes it on the target
object (completing the ask token, if any, with the method's return value);
on a holding or closed mailbox it is a no-op. -/
def Mailbox.receive (s : ActorState) : ActorState :=
  match s.mstate, s.queue with
  | MState.opened, m :: rest =>
    { s with queue := rest
           , obj := (runMethod m.method s.obj m.arg).1
           , dispatched := s.dispatched ++ [m]
           , completions :=
               if m.isAsk then s.completions ++ [(m.token, (runMethod m.method s.obj m.arg).2)]
               else s.completions }
  | _, _ => s

/-- Mailbox::close.  Modelled from the spec's close algorithm: under the
receive and push locks (so no receive is in flight), mark the mailbox
closed and drain the queue, destructing the pending messages and abandoning
the response token of every pending ask so its waiter observes a cancelled
completion. -/
def Mailbox.close (s : ActorState) : ActorState :=
  { s with mstate := MState.closed
         , queue := []
         , drained := s.drained ++ s.queue
         , cancelledTokens :=
             s.cancelledTokens ++ (s.queue.filter (fun m => m.isAsk)).map (fun m => m.token) }

/-- The parent-thread Actor constructor `Actor()` (actor.hpp line 87): no
object is constructed (`initialized` stays false) and the mailbox is
pre-created holding, with no real Scheduler, so nothing pushed to it is
consumed before activate. -/
def Actor.mkHolding : ActorState :=
  { mstate := MState.holding
  , queue := []
  , initialized := false
  , obj := 0
  , dead := false
  , objectDestructed := false
  , accepted := []
  , dispatched := []
  , drained := []
  , refused := []
  , completions := []
  , cancelledTokens := [] }

/-- Actor::emplaceObject (actor.hpp lines 137-148): constructs the target
object into the pre-allocated storage and then sets `initialized`.  The
constructor of the object receives a self ActorRef and may self-send
messages through it while it runs; those pushes are modelled by
`ctorPushes`, and they land in the still-unconsumed mailbox before
`initialized` is set. -/
def Actor.emplaceObject (o : Nat) (ctorPushes : List Msg) (s : ActorState) : ActorState :=
  let s1 := Mailbox.pushAll ctorPushes s
  { s1 with obj := o, initialized := true }

/-- Actor::activate(Scheduler&, ArgsTuple) (actor.hpp lines 89-93): first
`emplaceObject`, then `mailbox->activate(scheduler)`, in that order. -/
def Actor.activate (o : Nat) (ctorPushes : List Msg) (s : ActorState) : ActorState :=
  Mailbox.activate (Actor.emplaceObject o ctorPushes s)

/-- The target-thread Actor constructor `Actor(Scheduler&, Args&&...)`
(actor.hpp lines 67-71): a fresh holding mailbox, then `emplaceObject`,
then `mailbox->activate(scheduler)`. -/
def Actor.mkScheduled (o : Nat) (ctorPushes : List Msg) : ActorState :=
  Actor.activate o ctorPushes Actor.mkHolding

/-- Actor::invoke (actor.hpp lines 102-105): packages a fire-and-forget
message and pushes it onto the mailbox. -/
def Actor.invoke (mth : MethodCode) (a snd : Nat) (s : ActorState) : ActorState :=
  Mailbox.push { sender := snd, token := 0, isAsk := false, method := mth, arg := a } s

/-- Actor::ask (actor.hpp lines 107-116): packages a request/response
message bound to a fresh one-shot completion token `tk` and pushes it onto
the mailbox; the token is completed when the message is dispatched. -/
def Actor.ask (mth : MethodCode) (a snd tk : Nat) (s : ActorState) : ActorState :=
  Mailbox.push { sender := snd, token := tk, isAsk := true, method := mth, arg := a } s

/-- Events of the `~Actor` destructor body, in the order they occur. -/
inductive DtorEvent where
  | closeMailbox
  | destructObject

/-- The `~Actor` destructor (actor.hpp lines 95-100): close the mailbox
first (which waits out any in-flight receive), then destruct the target
object if and only if `initialized` is set.  Destroying the Actor also ends
the last strong reference to its mailbox, so the weak handles held by
ActorRef copies and Schedulers stop upgrading: `dead` becomes true. -/
def Actor.dtor (s : ActorState) : ActorState :=
  let s1 := Mailbox.close s
  let s2 := if s1.initialized then { s1 with objectDestructed := true } else s1
  { s2 with dead := true }

/-- The event trace of the `~Actor` destructor body (actor.hpp lines
95-100): the close always happens, and the object destructor runs after it
exactly when `initialized` is set. -/
def Actor.dtorTrace (s : ActorState) : List DtorEvent :=
  [DtorEvent.closeMailbox] ++ (if s.initialized then [DtorEvent.destructObject] else [])

/-- Outcome of ActorRef::ask: either a live completion token or the
dead-actor failure the requester observes when the mailbox is gone. -/
inductive AskOutcome where
  | token : Nat → AskOutcome
  | deadActor

/-- ActorRef::invoke.  Modelled from the spec (actor_ref.hpp is not in the
snapshot): the ref holds a weak handle to the mailbox; if the handle no
longer upgrades (the owning Actor was destructed, `dead`), the message is
silently dropped and the state is untouched, otherwise it pushes like
Actor::invoke. -/
def ActorRef.invoke (mth : MethodCode) (a snd : Nat) (s : ActorState) : ActorState :=
  if s.dead then s else Actor.invoke mth a snd s

/-- ActorRef::ask.  Modelled from the spec: against a dead mailbox the
returned completion token completes with a dead-actor failure instead of
hanging; against a live one it pushes the request/response message and
returns the pending token. -/
def ActorRef.ask (mth : MethodCode) (a snd tk : Nat) (s : ActorState) : ActorState × AskOutcome :=
  if s.dead then (s, AskOutcome.deadActor)
  else (Actor.ask mth a snd tk s, AskOutcome.token tk)

/-- Events of the `~Thread` destructor (thread.hpp lines 87-108). -/
inductive TEvent where
  | resumeThread
  | waitRunning
  | enqueueFinalTask
  | destructActorInPlace
  | completeJoinable
  | waitJoinable
  | loopStop
  | threadJoin
deriving DecidableEq

/-- The `~Thread` destructor sequence (thread.hpp lines 87-108): resume if
paused; wait on the running token; enqueue a final loop task that destructs
the Actor in place and then completes the joinable token; wait on joinable;
stop the loop; join the OS thread.  The final task runs on the loop thread,
but the destructor blocks on the joinable token before proceeding, so its
two events are linearized between the enqueue and the wait returning. -/
def Thread.dtorTrace (paused : Bool) : List TEvent :=
  (if paused then [TEvent.resumeThread] else []) ++
  [TEvent.waitRunning, TEvent.enqueueFinalTask, TEvent.destructActorInPlace,
   TEvent.completeJoinable, TEvent.waitJoinable, TEvent.loopStop, TEvent.threadJoin]

/-- One step of the actor runtime: a push from some sender, a receive run by
the scheduler, the (single) activation of a still-holding two-phase actor,
or the Actor's destruction. -/
inductive Step : ActorState → ActorState → Prop where
  | push (m : Msg) (s : ActorState) : Step s (Mailbox.push m s)
  | receive (s : ActorState) : Step s (Mailbox.receive s)
  | activate (o : Nat) (cs : List Msg) (s : ActorState) :
      s.mstate = MState.holding → Step s (Actor.activate o cs s)
  | dtor (s : ActorState) : Step s (Actor.dtor s)

/-- Zero or more runtime steps. -/
def Reach : ActorState → ActorState → Prop :=
  Relation.ReflTransGen Step

/-- States reachable from a freshly (two-phase) constructed Actor.  The
single-phase constructor is the activate step applied to this initial
state, so its reachable states are included. -/
def Reachable (s : ActorState) : Prop :=
  Reach Actor.mkHolding s

/-- The runtime invariant: an open mailbox implies a constructed object;
the accepted (push-order) history splits into the dispatched prefix, the
drained messages and the still-queued suffix; nothing is drained before
close; and a closed mailbox has an empty queue. -/
def RuntimeInv (s : ActorState) : Prop :=
  (s.mstate = MState.opened → s.initialized = true) ∧
  s.accepted = s.dispatched ++ s.drained ++ s.queue ∧
  (s.mstate ≠ MState.closed → s.drained = []) ∧
  (s.mstate = MState.closed → s.queue = [])

/- Style-function conversion (src/mbgl/style/conversion/function.cpp). -/

/-- The property type lattice used by the function converters, modelling
mbgl::style::expression::type::Type: Number, Boolean, String, Color, Null,
Object, Error, Value and Array with an item type and an optional fixed
length N. -/
inductive PType where
  | number
  | boolean
  | string
  | color
  | null
  | object
  | error
  | value
  | array (itemType : PType) (N : Option Nat)

/-- The one type-lattice comparison functionType performs: the source
compares `array.itemType == type::Number` with the lattice's structural
equality; only the comparison against Number is ever taken, embedded here
as a direct test. -/
def PType.isNumber : PType → Bool
  | PType.number => true
  | _ => false

/-- A convertible document value (the rapidjson-backed Convertible of the
conversion layer): null, boolean, number, string, array or object. -/
inductive Convertible where
  | null
  | bool (b : Bool)
  | num (x : Int)
  | str (s : String)
  | arr (xs : List Convertible)
  | obj (kvs : List (String × Convertible))

/-- First value bound to `key` in an object's member list. -/
def lookupKey : List (String × Convertible) → String → Option Convertible
  | [], _ => none
  | (k, x) :: rest, key => if k = key then some x else lookupKey rest key

/-- isObject of the conversion layer: true exactly for object values. -/
def isObject : Convertible → Bool
  | Convertible.obj _ => true
  | _ => false

/-- objectMember of the conversion layer: the named member of an object,
none for a missing member or a non-object. -/
def objectMember (v : Convertible) (key : String) : Option Convertible :=
  match v with
  | Convertible.obj kvs => lookupKey kvs key
  | _ => none

/-- toString of the conversion layer: the string payload of a string value,
none otherwise. -/
def Convertible.toString : Convertible → Option String
  | Convertible.str s => some s
  | _ => none

/-- FunctionType (function.cpp lines 15-21). -/
inductive FunctionType where
  | Interval
  | Exponential
  | Categorical
  | Identity
  | Invalid

/-- The interpolatable test functionType computes on its type argument
(function.cpp lines 24-37, written there as an inline match): true for
Number, for Color, and for an Array whose N is set and whose itemType is
Number. -/
def interpolatable : PType → Bool
  | PType.number => true
  | PType.color => true
  | PType.array itemType n => n.isSome && itemType.isNumber
  | _ => false

/-- functionType (function.cpp lines 23-55). -/
def functionType (type : PType) (value : Convertible) : FunctionType :=
  match objectMember value "type" with
  | none => if interpolatable type then FunctionType.Exponential else FunctionType.Interval
  | some typeValue =>
    match Convertible.toString typeValue with
    | none => FunctionType.Invalid
    | some s =>
      if s = "interval" then FunctionType.Interval
      else if s = "exponential" then FunctionType.Exponential
      else if s = "categorical" then FunctionType.Categorical
      else if s = "identity" then FunctionType.Identity
      else FunctionType.Invalid

/-- Stand-in for the expression AST (mbgl::style::expression::Expression).
The composite conversion below constructs no expression on any path, so the
AST's structure is irrelevant to the claims about it. -/
inductive Expression where
  | node

/-- convertCompositeFunctionToExpression (function.cpp lines 396-424),
with the out-parameter error and the empty optional combined into an
Except.  The final switch on functionType lists Interval, Exponential and
Categorical as labels that fall through, with default, to the
"unsupported function type" error; the match mirrors that by sending every
case to the same error. -/
def convertCompositeFunctionToExpression (type : PType) (value : Convertible) :
    Except String Expression :=
  if isObject value = false then Except.error "function must be an object"
  else
    match objectMember value "property" with
    | none => Except.error "function must specify property"
    | some propertyValue =>
      match Convertible.toString propertyValue with
      | none => Except.error "function property must be a string"
      | some _ =>
        match functionType type value with
        | FunctionType.Interval => Except.error "unsupported function type"
        | FunctionType.Exponential => Except.error "unsupported function type"
        | FunctionType.Categorical => Except.error "unsupported function type"
        | _ => Except.error "unsupported function type"

/-- The spec's wording of interpolatable, for comparison with the code's
test: Number, Color, or an Array with a fixed length whose item type is
Number. -/
def interpolatableSpec (t : PType) : Prop :=
  t = PType.number ∨ t = PType.color ∨ ∃ n : Nat, t = PType.array PType.number (some n)

/-- A sample message used by concrete witnesses. -/
def sampleMsg : Msg :=
  { sender := 1, token := 5, isAsk := true, method := MethodCode.getObj, arg := 0 }

/-- A second sample message from another sender. -/
def sampleMsg2 : Msg :=
  { sender := 2, token := 0, isAsk := false, method := MethodCode.incr, arg := 0 }

/-- Pushing onto a mailbox that is not closed enqueues the message. -/
lemma Mailbox.push_not_closed (m : Msg) (s : ActorState) (h : s.mstate ≠ MState.closed) :
    Mailbox.push m s = { s with queue := s.queue ++ [m], accepted := s.accepted ++ [m] } := by
  simp [Mailbox.push, h]

/-- Pushing onto a closed mailbox drops the message silently. -/
lemma Mailbox.push_closed_eq (m : Msg) (s : ActorState) (h : s.mstate = MState.closed) :
    Mailbox.push m s = { s with refused := s.refused ++ [m] } := by
  simp [Mailbox.push, h]

/-- Pushing a list of messages onto a non-closed mailbox appends them, in
order, to the queue and to the accepted history; nothing else changes. -/
lemma Mailbox.pushAll_not_closed (ms : List Msg) :
    ∀ (s : ActorState), s.mstate ≠ MState.closed →
      Mailbox.pushAll ms s = { s with queue := s.queue ++ ms, accepted := s.accepted ++ ms } := by
  induction ms with
  | nil => intro s _; simp [Mailbox.pushAll]
  | cons m rest ih =>
    intro s h
    have h1 : Mailbox.pushAll (m :: rest) s = Mailbox.pushAll rest (Mailbox.push m s) := rfl
    rw [h1, Mailbox.push_not_closed m s h]
    rw [ih _ (by simpa using h)]
    simp

/-- Receive on a mailbox that is not open is a no-op. -/
lemma Mailbox.receive_not_opened (s : ActorState) (h : s.mstate ≠ MState.opened) :
    Mailbox.receive s = s := by
  rcases s with ⟨ms, q, ini, ob, dd, od, acc, dis, dra, refu, comp, canc⟩
  cases ms <;> cases q <;> first | rfl | exact absurd rfl h

/-- Receive on an open mailbox with an empty queue is a no-op. -/
lemma Mailbox.receive_nil (s : ActorState) (h : s.queue = []) :
    Mailbox.receive s = s := by
  rcases s with ⟨ms, q, ini, ob, dd, od, acc, dis, dra, refu, comp, canc⟩
  cases hq : q <;> cases ms <;> simp_all <;> rfl

/-- Receive on an open mailbox with a pending message pops exactly that
message, runs it on the object, and completes its ask token (if any) with
the method's return value. -/
lemma Mailbox.receive_opened_cons (s : ActorState) (m : Msg) (rest : List Msg)
    (h1 : s.mstate = MState.opened) (h2 : s.queue = m :: rest) :
    Mailbox.receive s =
      { s with queue := rest
             , obj := (runMethod m.method s.obj m.arg).1
             , dispatched := s.dispatched ++ [m]
             , completions :=
                 if m.isAsk then s.completions ++ [(m.token, (runMethod m.method s.obj m.arg).2)]
                 else s.completions } := by
  rcases s with ⟨ms, q, ini, ob, dd, od, acc, dis, dra, refu, comp, canc⟩
  simp only at h1 h2
  subst h1; subst h2
  rfl

/-- The `~Actor` destructor in one structure update: close the mailbox and
drain it, set the object-destructed flag exactly when the object was
initialized, and end the mailbox's strong reference. -/
lemma Actor.dtor_eq (s : ActorState) : Actor.dtor s =
    { s with mstate := MState.closed
           , queue := []
           , drained := s.drained ++ s.queue
           , cancelledTokens :=
               s.cancelledTokens ++ (s.queue.filter (fun m => m.isAsk)).map (fun m => m.token)
           , objectDestructed := s.objectDestructed || s.initialized
           , dead := true } := by
  rcases s with ⟨ms, q, ini, ob, dd, od, acc, dis, dra, refu, comp, canc⟩
  cases ini <;> cases od <;> rfl

/-- Activating a holding actor in one structure update: the constructor's
self-sent messages are appended to the queue, the object is constructed,
and the mailbox opens. -/
lemma Actor.activate_holding (o : Nat) (cs : List Msg) (s : ActorState)
    (hh : s.mstate = MState.holding) :
    Actor.activate o cs s =
      { s with mstate := MState.opened
             , queue := s.queue ++ cs
             , accepted := s.accepted ++ cs
             , obj := o
             , initialized := true } := by
  rcases s with ⟨ms, q, ini, ob, dd, od, acc, dis, dra, refu, comp, canc⟩
  obtain rfl : ms = MState.holding := hh
  unfold Actor.activate Actor.emplaceObject
  rw [Mailbox.pushAll_not_closed cs _ (by intro h; cases h)]
  rfl

/-- The runtime invariant is preserved by every step. -/
lemma RuntimeInv.step {b c : ActorState} (hI : RuntimeInv b) (st : Step b c) : RuntimeInv c := by
  obtain ⟨h1, h2, h3, h4⟩ := hI
  cases st with
  | push m =>
    by_cases hc : b.mstate = MState.closed
    · rw [Mailbox.push_closed_eq m b hc]
      exact ⟨h1, h2, h3, h4⟩
    · rw [Mailbox.push_not_closed m b hc]
      refine ⟨h1, ?_, h3, ?_⟩
      · show b.accepted ++ [m] = b.dispatched ++ b.drained ++ (b.queue ++ [m])
        rw [h2]; simp
      · intro h; exact absurd h hc
  | receive =>
    by_cases ho : b.mstate = MState.opened
    · cases hq : b.queue with
      | nil => rw [Mailbox.receive_nil b hq]; exact ⟨h1, h2, h3, h4⟩
      | cons m rest =>
        rw [Mailbox.receive_opened_cons b m rest ho hq]
        have hdra : b.drained = [] := h3 (by rw [ho]; intro h; cases h)
        refine ⟨fun _ => h1 ho, ?_, fun _ => hdra, ?_⟩
        · show b.accepted = b.dispatched ++ [m] ++ b.drained ++ rest
          rw [h2, hq, hdra]; simp
        · intro h; rw [ho] at h; cases h
    · rw [Mailbox.receive_not_opened b ho]; exact ⟨h1, h2, h3, h4⟩
  | activate o cs =>
    rename_i hh
    rw [Actor.activate_holding o cs b hh]
    have hdra : b.drained = [] := h3 (by rw [hh]; intro h; cases h)
    refine ⟨fun _ => rfl, ?_, fun _ => hdra, ?_⟩
    · show b.accepted ++ cs = b.dispatched ++ b.drained ++ (b.queue ++ cs)
      rw [h2]; simp
    · intro h; cases h
  | dtor =>
    rw [Actor.dtor_eq]
    refine ⟨?_, ?_, ?_, fun _ => rfl⟩
    · intro h; cases h
    · show b.accepted = b.dispatched ++ (b.drained ++ b.queue) ++ []
      rw [h2]; simp
    · intro h; exact absurd rfl h

/-- The runtime invariant holds in the initial (two-phase) state. -/
lemma RuntimeInv.init : RuntimeInv Actor.mkHolding := by
  unfold RuntimeInv Actor.mkHolding
  refine ⟨?_, rfl, fun _ => rfl, ?_⟩ <;> intro h <;> cases h

/-- Every reachable state satisfies the runtime invariant. -/
lemma RuntimeInv.of_reachable {s : ActorState} (h : Reachable s) : RuntimeInv s := by
  unfold Reachable Reach at h
  induction h with
  | refl => exact RuntimeInv.init
  | tail _ st ih => exact RuntimeInv.step ih st

/-- From a closed mailbox, one step keeps the mailbox closed and dispatches
nothing. -/
lemma Step.closed_frozen_single {b c : ActorState} (hb : b.mstate = MState.closed) (st : Step b c) :
    c.mstate = MState.closed ∧ c.dispatched = b.dispatched := by
  cases st with
  | push m =>
    rw [Mailbox.push_closed_eq m b hb]
    exact ⟨hb, rfl⟩
  | receive =>
    rw [Mailbox.receive_not_opened b (by rw [hb]; intro h; cases h)]
    exact ⟨hb, rfl⟩
  | activate o cs =>
    rename_i hh
    rw [hb] at hh; cases hh
  | dtor =>
    rw [Actor.dtor_eq]
    exact ⟨rfl, rfl⟩

/-- From a closed mailbox, any number of steps keeps the mailbox closed and
dispatches nothing. -/
lemma Reach.closed_frozen {a b : ActorState} (ha : a.mstate = MState.closed) (h : Reach a b) :
    b.mstate = MState.closed ∧ b.dispatched = a.dispatched := by
  unfold Reach at h
  induction h with
  | refl => exact ⟨ha, rfl⟩
  | tail _ st ih =>
    obtain ⟨h1, h2⟩ := ih
    obtain ⟨g1, g2⟩ := Step.closed_frozen_single h1 st
    exact ⟨g1, g2.trans h2⟩

/-- Iterating receive over the whole queue of an open mailbox dispatches
exactly the queued messages, in queue order. -/
lemma Mailbox.receive_iter_dispatched :
    ∀ (q : List Msg) (s : ActorState), s.mstate = MState.opened → s.queue = q →
      (Mailbox.receive^[q.length] s).dispatched = s.dispatched ++ q := by
  intro q
  induction q with
  | nil => intro s _ _; simp
  | cons m rest ih =>
    intro s h1 h2
    rw [List.length_cons, Function.iterate_succ_apply]
    rw [Mailbox.receive_opened_cons s m rest h1 h2]
    have h3 := ih { s with
        queue := rest,
        obj := (runMethod m.method s.obj m.arg).1,
        dispatched := s.dispatched ++ [m],
        completions :=
            if m.isAsk then s.completions ++ [(m.token, (runMethod m.method s.obj m.arg).2)]
            else s.completions } h1 rfl
    rw [h3]
    simp

/-- A concrete runtime state used by the witnesses: a two-phase actor is
activated, two messages from different senders are pushed, and one receive
runs. -/
def sampleState : ActorState :=
  Mailbox.receive (Mailbox.push sampleMsg2 (Mailbox.push sampleMsg (Actor.mkScheduled 3 [])))

/-- The sample state is reachable from a fresh two-phase actor. -/
lemma sampleState_reachable : Reachable sampleState :=
  Relation.ReflTransGen.tail
    (Relation.ReflTransGen.tail
      (Relation.ReflTransGen.tail
        (Relation.ReflTransGen.single (Step.activate 3 [] Actor.mkHolding rfl))
        (Step.push sampleMsg (Actor.mkScheduled 3 [])))
      (Step.push sampleMsg2 (Mailbox.push sampleMsg (Actor.mkScheduled 3 []))))
    (Step.receive (Mailbox.push sampleMsg2 (Mailbox.push sampleMsg (Actor.mkScheduled 3 []))))

/-- C1: no message is ever executed against uninitialized target-object
storage.  In every reachable state an open mailbox implies the object is
constructed; a receive that dispatches anything finds the object
constructed; and for the single-phase constructor (which, like activate,
runs emplaceObject before activating the mailbox against the scheduler) the
messages the object self-sends from its own constructor sit buffered in the
queue, none dispatched, when the constructor returns. -/
theorem actor_no_message_against_uninitialized_storage (s : ActorState) (h : Reachable s) :
    (s.mstate = MState.opened → s.initialized = true) ∧
    ((Mailbox.receive s).dispatched ≠ s.dispatched → s.initialized = true) ∧
    ∀ (o : Nat) (cs : List Msg),
      (Actor.mkScheduled o cs).initialized = true ∧
      (Actor.mkScheduled o cs).dispatched = [] ∧
      (Actor.mkScheduled o cs).queue = cs := by
  obtain ⟨h1, h2, h3, h4⟩ := RuntimeInv.of_reachable h
  refine ⟨h1, ?_, ?_⟩
  · intro hd
    by_cases ho : s.mstate = MState.opened
    · exact h1 ho
    · rw [Mailbox.receive_not_opened s ho] at hd
      exact absurd rfl hd
  · intro o cs
    unfold Actor.mkScheduled
    rw [Actor.activate_holding o cs Actor.mkHolding rfl]
    exact ⟨rfl, rfl, rfl⟩

/-- C1 witness at a concrete activated actor. -/
theorem actor_no_message_against_uninitialized_storage_witness :
    ((Actor.mkScheduled 3 []).mstate = MState.opened → (Actor.mkScheduled 3 []).initialized = true) ∧
    ((Mailbox.receive (Actor.mkScheduled 3 [])).dispatched ≠ (Actor.mkScheduled 3 []).dispatched →
      (Actor.mkScheduled 3 []).initialized = true) ∧
    ∀ (o : Nat) (cs : List Msg),
      (Actor.mkScheduled o cs).initialized = true ∧
      (Actor.mkScheduled o cs).dispatched = [] ∧
      (Actor.mkScheduled o cs).queue = cs :=
  actor_no_message_against_uninitialized_storage (Actor.mkScheduled 3 [])
    (Relation.ReflTransGen.single (Step.activate 3 [] Actor.mkHolding rfl))

/-- C2: per-sender FIFO.  In every reachable state the dispatched history
is a prefix of the accepted (push-order) history, so messages execute in
push order; in particular, restricted to any one sender the dispatch order
is that sender's push order, and everything accepted while holding precedes
everything accepted after open. -/
theorem mailbox_per_sender_fifo (s : ActorState) (h : Reachable s) :
    (∃ t, s.accepted = s.dispatched ++ t) ∧
    ∀ sd : Nat, ∃ t,
      s.accepted.filter (fun m => m.sender == sd)
        = s.dispatched.filter (fun m => m.sender == sd) ++ t := by
  obtain ⟨h1, h2, h3, h4⟩ := RuntimeInv.of_reachable h
  constructor
  · exact ⟨s.drained ++ s.queue, by rw [h2]; simp⟩
  · intro sd
    refine ⟨(s.drained ++ s.queue).filter (fun m => m.sender == sd), ?_⟩
    rw [h2]
    simp [List.filter_append]

/-- C2 witness at a concrete trace with two senders and one dispatch. -/
theorem mailbox_per_sender_fifo_witness :
    (∃ t, sampleState.accepted = sampleState.dispatched ++ t) ∧
    ∀ sd : Nat, ∃ t,
      sampleState.accepted.filter (fun m => m.sender == sd)
        = sampleState.dispatched.filter (fun m => m.sender == sd) ++ t :=
  mailbox_per_sender_fifo sampleState sampleState_reachable

/-- C3: a message pushed to a closed mailbox is accepted silently and
dropped; once closed, no further step dispatches anything (so neither a
message queued at close nor one pushed later ever executes); and close
itself drains the queue, moving every pending message to the drained
history and releasing the response token of every pending ask as
cancelled. -/
theorem mailbox_closed_never_executes (s s' t : ActorState) (m : Msg)
    (hc : s.mstate = MState.closed) (hr : Reach s s') :
    Mailbox.push m s = { s with refused := s.refused ++ [m] } ∧
    s'.dispatched = s.dispatched ∧
    s'.mstate = MState.closed ∧
    (Mailbox.close t).queue = [] ∧
    (∀ mq, mq ∈ t.queue → mq ∈ (Mailbox.close t).drained) ∧
    (∀ mq, mq ∈ t.queue → mq.isAsk = true → mq.token ∈ (Mailbox.close t).cancelledTokens) := by
  obtain ⟨g1, g2⟩ := Reach.closed_frozen hc hr
  refine ⟨Mailbox.push_closed_eq m s hc, g2, g1, rfl, ?_, ?_⟩
  · intro mq hmq
    show mq ∈ t.drained ++ t.queue
    exact List.mem_append_right _ hmq
  · intro mq hmq hask
    show mq.token ∈
      t.cancelledTokens ++ (t.queue.filter (fun x => x.isAsk)).map (fun x => x.token)
    refine List.mem_append_right _ ?_
    exact List.mem_map.mpr ⟨mq, List.mem_filter.mpr ⟨hmq, by simp [hask]⟩, rfl⟩

/-- C3 witness: a destroyed sample actor, one more push after close, and a
state with a pending ask in its queue. -/
theorem mailbox_closed_never_executes_witness :
    Mailbox.push sampleMsg (Actor.dtor sampleState)
      = { Actor.dtor sampleState with refused := (Actor.dtor sampleState).refused ++ [sampleMsg] } ∧
    (Mailbox.push sampleMsg (Actor.dtor sampleState)).dispatched = (Actor.dtor sampleState).dispatched ∧
    (Mailbox.push sampleMsg (Actor.dtor sampleState)).mstate = MState.closed ∧
    (Mailbox.close (Mailbox.push sampleMsg (Actor.mkScheduled 3 []))).queue = [] ∧
    (∀ mq, mq ∈ (Mailbox.push sampleMsg (Actor.mkScheduled 3 [])).queue →
      mq ∈ (Mailbox.close (Mailbox.push sampleMsg (Actor.mkScheduled 3 []))).drained) ∧
    (∀ mq, mq ∈ (Mailbox.push sampleMsg (Actor.mkScheduled 3 [])).queue → mq.isAsk = true →
      mq.token ∈ (Mailbox.close (Mailbox.push sampleMsg (Actor.mkScheduled 3 []))).cancelledTokens) :=
  mailbox_closed_never_executes (Actor.dtor sampleState)
    (Mailbox.push sampleMsg (Actor.dtor sampleState))
    (Mailbox.push sampleMsg (Actor.mkScheduled 3 [])) sampleMsg
    rfl
    (Relation.ReflTransGen.single (Step.push sampleMsg (Actor.dtor sampleState)))

/-- C4: operations through an ActorRef that outlives its Actor.  Once the
Actor has been destructed the weak mailbox handle no longer upgrades:
invoke is a no-op that silently drops the message, ask returns the
dead-actor failure without touching the state, and destructing any Actor
is exactly what makes the handle dead. -/
theorem actorref_dead_ref_behaviour (s : ActorState) (mth : MethodCode) (a snd tk : Nat)
    (hd : s.dead = true) :
    ActorRef.invoke mth a snd s = s ∧
    (ActorRef.ask mth a snd tk s).1 = s ∧
    (ActorRef.ask mth a snd tk s).2 = AskOutcome.deadActor ∧
    ∀ u : ActorState, (Actor.dtor u).dead = true := by
  refine ⟨?_, ?_, ?_, fun u => ?_⟩
  · simp [ActorRef.invoke, hd]
  · simp [ActorRef.ask, hd]
  · simp [ActorRef.ask, hd]
  · rw [Actor.dtor_eq]

/-- C4 witness at the destroyed sample actor. -/
theorem actorref_dead_ref_behaviour_witness :
    ActorRef.invoke MethodCode.getObj 0 9 (Actor.dtor sampleState) = Actor.dtor sampleState ∧
    (ActorRef.ask MethodCode.getObj 0 9 3 (Actor.dtor sampleState)).1 = Actor.dtor sampleState ∧
    (ActorRef.ask MethodCode.getObj 0 9 3 (Actor.dtor sampleState)).2 = AskOutcome.deadActor ∧
    ∀ u : ActorState, (Actor.dtor u).dead = true :=
  actorref_dead_ref_behaviour (Actor.dtor sampleState) MethodCode.getObj 0 9 3 rfl

/-- C5: the `~Actor` destructor closes the mailbox first and only then
destructs the target object, and it destructs the object exactly when
`initialized` is true; after the destructor, no further step dispatches
anything (the mailbox stays closed), and destroying a never-activated
two-phase Actor runs no object destructor. -/
theorem actor_dtor_close_then_destruct (s s' : ActorState)
    (h0 : s.objectDestructed = false) (hr : Reach (Actor.dtor s) s') :
    (Actor.dtor s).mstate = MState.closed ∧
    (Actor.dtor s).objectDestructed = s.initialized ∧
    (s.initialized = true →
      Actor.dtorTrace s = [DtorEvent.closeMailbox, DtorEvent.destructObject]) ∧
    (s.initialized = false → Actor.dtorTrace s = [DtorEvent.closeMailbox]) ∧
    s'.dispatched = (Actor.dtor s).dispatched ∧
    (Actor.dtor Actor.mkHolding).objectDestructed = false := by
  have hclosed : (Actor.dtor s).mstate = MState.closed := by rw [Actor.dtor_eq]
  obtain ⟨g1, g2⟩ := Reach.closed_frozen hclosed hr
  refine ⟨hclosed, ?_, ?_, ?_, g2, rfl⟩
  · rw [Actor.dtor_eq]
    show (s.objectDestructed || s.initialized) = s.initialized
    rw [h0]
    simp
  · intro hi
    unfold Actor.dtorTrace
    rw [hi]
    rfl
  · intro hi
    unfold Actor.dtorTrace
    rw [hi]
    rfl

/-- C5 witness at the activated sample actor. -/
theorem actor_dtor_close_then_destruct_witness :
    (Actor.dtor sampleState).mstate = MState.closed ∧
    (Actor.dtor sampleState).objectDestructed = sampleState.initialized ∧
    (sampleState.initialized = true →
      Actor.dtorTrace sampleState = [DtorEvent.closeMailbox, DtorEvent.destructObject]) ∧
    (sampleState.initialized = false → Actor.dtorTrace sampleState = [DtorEvent.closeMailbox]) ∧
    (Actor.dtor sampleState).dispatched = (Actor.dtor sampleState).dispatched ∧
    (Actor.dtor Actor.mkHolding).objectDestructed = false :=
  actor_dtor_close_then_destruct sampleState (Actor.dtor sampleState) rfl
    Relation.ReflTransGen.refl

/-- C6: two-phase construction.  The no-argument constructor builds no
object and a holding, empty mailbox; after any messages accumulate while
holding, a single activate call emplaces the object, opens the mailbox,
and iterating receive dispatches the held messages (followed by any the
object's constructor self-sent) exactly in push order. -/
theorem actor_two_phase_activation (ms cs : List Msg) (o : Nat) :
    Actor.mkHolding.initialized = false ∧
    Actor.mkHolding.mstate = MState.holding ∧
    Actor.mkHolding.queue = [] ∧
    (Actor.activate o cs (Mailbox.pushAll ms Actor.mkHolding)).initialized = true ∧
    (Actor.activate o cs (Mailbox.pushAll ms Actor.mkHolding)).mstate = MState.opened ∧
    (Actor.activate o cs (Mailbox.pushAll ms Actor.mkHolding)).queue = ms ++ cs ∧
    (Mailbox.receive^[(ms ++ cs).length]
        (Actor.activate o cs (Mailbox.pushAll ms Actor.mkHolding))).dispatched = ms ++ cs := by
  have hnc : Actor.mkHolding.mstate ≠ MState.closed := by intro h; cases h
  rw [Mailbox.pushAll_not_closed ms Actor.mkHolding hnc, Actor.activate_holding o cs _ rfl]
  exact ⟨rfl, rfl, rfl, rfl, rfl, rfl,
    Mailbox.receive_iter_dispatched (ms ++ cs) _ rfl rfl⟩

/-- C7: thread shutdown ordering.  In the `~Thread` trace the resume (when
paused) comes first, the wait on the running token precedes the enqueue of
the final task, the final task destructs the actor in place and completes
the joinable token before the wait on joinable returns, and only then the
loop is stopped and the OS thread joined; and because the actor's
destructor closes the mailbox, no step after it dispatches any message. -/
theorem thread_shutdown_ordering (paused : Bool) (s s' : ActorState)
    (hr : Reach (Actor.dtor s) s') :
    (Thread.dtorTrace paused).indexOf TEvent.waitRunning
        < (Thread.dtorTrace paused).indexOf TEvent.enqueueFinalTask ∧
    (Thread.dtorTrace paused).indexOf TEvent.enqueueFinalTask
        < (Thread.dtorTrace paused).indexOf TEvent.destructActorInPlace ∧
    (Thread.dtorTrace paused).indexOf TEvent.destructActorInPlace
        < (Thread.dtorTrace paused).indexOf TEvent.completeJoinable ∧
    (Thread.dtorTrace paused).indexOf TEvent.completeJoinable
        < (Thread.dtorTrace paused).indexOf TEvent.waitJoinable ∧
    (Thread.dtorTrace paused).indexOf TEvent.waitJoinable
        < (Thread.dtorTrace paused).indexOf TEvent.loopStop ∧
    (Thread.dtorTrace paused).indexOf TEvent.loopStop
        < (Thread.dtorTrace paused).indexOf TEvent.threadJoin ∧
    (paused = true → (Thread.dtorTrace paused).head? = some TEvent.resumeThread) ∧
    (paused = false → (Thread.dtorTrace paused).head? = some TEvent.waitRunning) ∧
    (Actor.dtor s).mstate = MState.closed ∧
    s'.dispatched = (Actor.dtor s).dispatched := by
  have hclosed : (Actor.dtor s).mstate = MState.closed := by rw [Actor.dtor_eq]
  obtain ⟨g1, g2⟩ := Reach.closed_frozen hclosed hr
  cases paused <;>
    exact ⟨by decide, by decide, by decide, by decide, by decide, by decide,
      by decide, by decide, hclosed, g2⟩

/-- C7 witness at the paused case and the destroyed sample actor. -/
theorem thread_shutdown_ordering_witness :
    (Thread.dtorTrace true).indexOf TEvent.waitRunning
        < (Thread.dtorTrace true).indexOf TEvent.enqueueFinalTask ∧
    (Thread.dtorTrace true).indexOf TEvent.enqueueFinalTask
        < (Thread.dtorTrace true).indexOf TEvent.destructActorInPlace ∧
    (Thread.dtorTrace true).indexOf TEvent.destructActorInPlace
        < (Thread.dtorTrace true).indexOf TEvent.completeJoinable ∧
    (Thread.dtorTrace true).indexOf TEvent.completeJoinable
        < (Thread.dtorTrace true).indexOf TEvent.waitJoinable ∧
    (Thread.dtorTrace true).indexOf TEvent.waitJoinable
        < (Thread.dtorTrace true).indexOf TEvent.loopStop ∧
    (Thread.dtorTrace true).indexOf TEvent.loopStop
        < (Thread.dtorTrace true).indexOf TEvent.threadJoin ∧
    (true = true → (Thread.dtorTrace true).head? = some TEvent.resumeThread) ∧
    (true = false → (Thread.dtorTrace true).head? = some TEvent.waitRunning) ∧
    (Actor.dtor sampleState).mstate = MState.closed ∧
    (Actor.dtor sampleState).dispatched = (Actor.dtor sampleState).dispatched :=
  thread_shutdown_ordering true sampleState (Actor.dtor sampleState)
    Relation.ReflTransGen.refl

/-- C8: ask round-trip.  On a live (open) actor, asking any method and
receiving completes the one-shot token with exactly the method's return
value; in particular asking `identity` with argument v completes the token
with v, since `identity` returns its argument unchanged. -/
theorem actor_ask_round_trip (s : ActorState) (mth : MethodCode) (a v snd tk : Nat)
    (ho : s.mstate = MState.opened) (hq : s.queue = []) :
    (Mailbox.receive (Actor.ask mth a snd tk s)).completions
        = s.completions ++ [(tk, (runMethod mth s.obj a).2)] ∧
    (Mailbox.receive (Actor.ask MethodCode.identity v snd tk s)).completions
        = s.completions ++ [(tk, v)] ∧
    runMethod MethodCode.identity s.obj v = (s.obj, v) := by
  have key : ∀ (mth2 : MethodCode) (a2 : Nat),
      (Mailbox.receive (Actor.ask mth2 a2 snd tk s)).completions
        = s.completions ++ [(tk, (runMethod mth2 s.obj a2).2)] := by
    intro mth2 a2
    have hnc : s.mstate ≠ MState.closed := by rw [ho]; intro h; cases h
    show (Mailbox.receive (Mailbox.push ⟨snd, tk, true, mth2, a2⟩ s)).completions = _
    rw [Mailbox.push_not_closed ⟨snd, tk, true, mth2, a2⟩ s hnc]
    rw [Mailbox.receive_opened_cons
        { s with queue := s.queue ++ [⟨snd, tk, true, mth2, a2⟩],
                 accepted := s.accepted ++ [⟨snd, tk, true, mth2, a2⟩] }
        ⟨snd, tk, true, mth2, a2⟩ [] ho (by simp [hq])]
    simp
  exact ⟨key mth a, key MethodCode.identity v, rfl⟩

/-- C8 witness: asking identity of 42 on a concrete open actor completes
the token with 42. -/
theorem actor_ask_round_trip_witness :
    (Mailbox.receive (Actor.ask MethodCode.getObj 0 1 9 (Actor.mkScheduled 3 []))).completions
        = (Actor.mkScheduled 3 []).completions
            ++ [(9, (runMethod MethodCode.getObj (Actor.mkScheduled 3 []).obj 0).2)] ∧
    (Mailbox.receive (Actor.ask MethodCode.identity 42 1 9 (Actor.mkScheduled 3 []))).completions
        = (Actor.mkScheduled 3 []).completions ++ [(9, 42)] ∧
    runMethod MethodCode.identity (Actor.mkScheduled 3 []).obj 42 = ((Actor.mkScheduled 3 []).obj, 42) :=
  actor_ask_round_trip (Actor.mkScheduled 3 []) MethodCode.getObj 0 42 1 9 rfl rfl

/-- The code's interpolatable test agrees with the spec's wording: Number,
Color, or an Array of fixed length whose item type is Number. -/
lemma PType.isNumber_iff (t : PType) : PType.isNumber t = true ↔ t = PType.number := by
  cases t <;> simp [PType.isNumber]

/-- The code's interpolatable test agrees with the spec's wording: Number,
Color, or an Array of fixed length whose item type is Number. -/
lemma interpolatable_iff (t : PType) : interpolatable t = true ↔ interpolatableSpec t := by
  cases t with
  | number => exact iff_of_true rfl (Or.inl rfl)
  | color => exact iff_of_true rfl (Or.inr (Or.inl rfl))
  | array item n =>
    cases n with
    | none =>
      refine iff_of_false (by simp [interpolatable]) ?_
      rintro (h | h | ⟨n', h⟩) <;> cases h
    | some k =>
      by_cases hi : item = PType.number
      · subst hi
        refine iff_of_true (by simp [interpolatable, PType.isNumber]) (Or.inr (Or.inr ⟨k, rfl⟩))
      · refine iff_of_false ?_ ?_
        · intro hcontra
          have h2 : PType.isNumber item = true := by
            simpa [interpolatable] using hcontra
          exact hi ((PType.isNumber_iff item).mp h2)
        · rintro (h | h | ⟨n', h⟩)
          · cases h
          · cases h
          · injection h with h1 h2
            exact hi h1
  | boolean =>
    refine iff_of_false (by simp [interpolatable]) ?_
    rintro (h | h | ⟨n', h⟩) <;> cases h
  | string =>
    refine iff_of_false (by simp [interpolatable]) ?_
    rintro (h | h | ⟨n', h⟩) <;> cases h
  | null =>
    refine iff_of_false (by simp [interpolatable]) ?_
    rintro (h | h | ⟨n', h⟩) <;> cases h
  | object =>
    refine iff_of_false (by simp [interpolatable]) ?_
    rintro (h | h | ⟨n', h⟩) <;> cases h
  | error =>
    refine iff_of_false (by simp [interpolatable]) ?_
    rintro (h | h | ⟨n', h⟩) <;> cases h
  | value =>
    refine iff_of_false (by simp [interpolatable]) ?_
    rintro (h | h | ⟨n', h⟩) <;> cases h

/-- C10: functionType.  With no "type" object member the result is
Exponential exactly when the expected property type is interpolatable
(Number, Color, or an Array of fixed length with Number items) and
Interval otherwise; with a "type" member the result is Invalid unless the
member is the string "interval", "exponential", "categorical" or
"identity", each mapping to its function type. -/
theorem functionType_default_and_typed (t : PType) (v : Convertible) :
    (objectMember v "type" = none →
        functionType t v
            = (if interpolatable t then FunctionType.Exponential else FunctionType.Interval) ∧
        (functionType t v = FunctionType.Exponential ↔ interpolatableSpec t) ∧
        (functionType t v = FunctionType.Interval ↔ ¬ interpolatableSpec t)) ∧
    (∀ tv, objectMember v "type" = some tv →
        (Convertible.toString tv = none → functionType t v = FunctionType.Invalid) ∧
        (∀ str, Convertible.toString tv = some str →
            functionType t v =
              (if str = "interval" then FunctionType.Interval
               else if str = "exponential" then FunctionType.Exponential
               else if str = "categorical" then FunctionType.Categorical
               else if str = "identity" then FunctionType.Identity
               else FunctionType.Invalid)) ∧
        (∀ str, Convertible.toString tv = some str →
            str ≠ "interval" → str ≠ "exponential" → str ≠ "categorical" → str ≠ "identity" →
            functionType t v = FunctionType.Invalid)) := by
  constructor
  · intro hn
    have he : functionType t v
        = (if interpolatable t then FunctionType.Exponential else FunctionType.Interval) := by
      unfold functionType
      rw [hn]
    refine ⟨he, ?_, ?_⟩
    · by_cases hi : interpolatable t = true
      · rw [he, if_pos hi]
        exact iff_of_true rfl ((interpolatable_iff t).mp hi)
      · rw [he, if_neg hi]
        exact iff_of_false (by intro h; cases h)
          (fun hs => hi ((interpolatable_iff t).mpr hs))
    · by_cases hi : interpolatable t = true
      · rw [he, if_pos hi]
        exact iff_of_false (by intro h; cases h)
          (fun hs => hs ((interpolatable_iff t).mp hi))
      · rw [he, if_neg hi]
        exact iff_of_true rfl (fun hs => hi ((interpolatable_iff t).mpr hs))
  · intro tv htv
    refine ⟨?_, ?_, ?_⟩
    · intro hs
      simp only [functionType, htv, hs]
    · intro str hstr
      simp only [functionType, htv, hstr]
    · intro str hstr hn1 hn2 hn3 hn4
      simp [functionType, htv, hstr, hn1, hn2, hn3, hn4]

/-- C9: convertCompositeFunctionToExpression never succeeds.  It always
returns an error: "function must be an object" for a non-object, "function
must specify property" for a missing property member, "function property
must be a string" for a non-string one, and otherwise always "unsupported
function type", because every branch of its function-type switch falls
through to the error default. -/
theorem convertComposite_never_succeeds (t : PType) (v : Convertible) :
    (∀ e : Expression, convertCompositeFunctionToExpression t v ≠ Except.ok e) ∧
    (isObject v = false →
        convertCompositeFunctionToExpression t v
          = Except.error "function must be an object") ∧
    (isObject v = true → objectMember v "property" = none →
        convertCompositeFunctionToExpression t v
          = Except.error "function must specify property") ∧
    (∀ pv, isObject v = true → objectMember v "property" = some pv →
        Convertible.toString pv = none →
        convertCompositeFunctionToExpression t v
          = Except.error "function property must be a string") ∧
    (∀ pv str, isObject v = true → objectMember v "property" = some pv →
        Convertible.toString pv = some str →
        convertCompositeFunctionToExpression t v
          = Except.error "unsupported function type") := by
  refine ⟨?_, ?_, ?_, ?_, ?_⟩
  · intro e
    cases hio : isObject v
    · simp [convertCompositeFunctionToExpression, hio]
    · cases hpv : objectMember v "property" with
      | none => simp [convertCompositeFunctionToExpression, hio, hpv]
      | some pv =>
        cases hs : Convertible.toString pv with
        | none => simp [convertCompositeFunctionToExpression, hio, hpv, hs]
        | some str =>
          cases hft : functionType t v <;>
            simp [convertCompositeFunctionToExpression, hio, hpv, hs, hft]
  · intro h
    simp [convertCompositeFunctionToExpression, h]
  · intro h1 h2
    simp [convertCompositeFunctionToExpression, h1, h2]
  · intro pv h1 h2 h3
    simp [convertCompositeFunctionToExpression, h1, h2, h3]
  · intro pv str h1 h2 h3
    cases hft : functionType t v <;>
      simp [convertCompositeFunctionToExpression, h1, h2, h3, hft]
